import Mathlib

/-!
# sxhkd: event loop, replay decision and reload

A shallow embedding of `src/sxhkd.c` (with the declarations of `src/sxhkd.h`).

The global variables of the daemon become the fields of one record, `Daemon`.
Every function of `sxhkd.c` becomes a function from the daemon state to the new
daemon state together with the list of calls it made that are visible outside
the process or that leave `sxhkd.c` (`Effect`).  Functions that `sxhkd.c` calls
but that are defined in other translation units (`parse.c`, `grab.c`,
`types.c`, `helpers.c`) or in libxcb are collected in `Externals`.

Machine integers are natural numbers with explicit reduction modulo `2^16` or
`2^32`.
-/

namespace Sxhkd

/-! ## Constants -/

/-- Event codes of `xcb/xproto.h`. -/
def XCB_KEY_PRESS : Nat := 2
def XCB_KEY_RELEASE : Nat := 3
def XCB_BUTTON_PRESS : Nat := 4
def XCB_BUTTON_RELEASE : Nat := 5
def XCB_MOTION_NOTIFY : Nat := 6
def XCB_MAPPING_NOTIFY : Nat := 34

def XCB_NO_SYMBOL : Nat := 0
def XCB_NONE : Nat := 0

/-- Values of `xcb_mapping_t`. -/
def XCB_MAPPING_MODIFIER : Nat := 0
def XCB_MAPPING_KEYBOARD : Nat := 1
def XCB_MAPPING_POINTER : Nat := 2

/-- Values of `xcb_allow_t`. -/
def XCB_ALLOW_ASYNC_POINTER : Nat := 0
def XCB_ALLOW_SYNC_POINTER : Nat := 1
def XCB_ALLOW_REPLAY_POINTER : Nat := 2
def XCB_ALLOW_ASYNC_KEYBOARD : Nat := 3
def XCB_ALLOW_SYNC_KEYBOARD : Nat := 4
def XCB_ALLOW_REPLAY_KEYBOARD : Nat := 5

/-- Signal numbers of `signal.h` (Linux). -/
def SIGHUP : Int := 1
def SIGINT : Int := 2
def SIGUSR1 : Int := 10
def SIGALRM : Int := 14
def SIGTERM : Int := 15

/-- Status tags of `sxhkd.h`. -/
def HOTKEY_PREFIX : Char := 'H'
def COMMAND_PREFIX : Char := 'C'
def TIMEOUT_PREFIX : Char := 'T'

/-! ## Machine arithmetic -/

/-- Bitwise complement of a value promoted to a 32-bit `int`, as its
two's-complement bit pattern. -/
def not32 (x : Nat) : Nat := 4294967295 - x % 4294967296

/-- Subtraction of two `xcb_timestamp_t` (`uint32_t`) values. -/
def u32_sub (a b : Nat) : Nat := (a % 4294967296 + 4294967296 - b % 4294967296) % 4294967296

/-- Conversion to `uint16_t`. -/
def u16 (x : Nat) : Nat := x % 65536

/-! ## Data model -/

/-- The fields of `hotkey_t` that `sxhkd.c` reads: `hk->chain`, `hk->command`,
`hk->cycle`.  The chain and the cycle are owned by `types.c` and are kept as
handles; `hk->next` is the tail of the list. -/
structure hotkey_t where
  chain : Nat
  command : String
  cycle : Nat
  deriving DecidableEq, Repr

/-- The globals that the chain matcher of `types.c` works on:
`hotkeys_head .. hotkeys_tail`, `chained`, `locked`. -/
structure Automaton where
  hotkeys : List hotkey_t
  chained : Bool
  locked : Bool
  deriving DecidableEq, Repr

/-- The global variables of the daemon.  `status_fifo` is `none` for `NULL`.
`motion_interval` and `last_motion_time` are declared outside `sxhkd.h`; they
are held as unsigned 32-bit values like the event time they are compared
with. -/
structure Daemon extends Automaton where
  running : Bool
  reload : Bool
  bell : Bool
  status_fifo : Option Nat
  ignore_mapping : Bool
  motion_interval : Nat
  last_motion_time : Nat
  num_lock : Nat
  caps_lock : Nat
  scroll_lock : Nat
  escape_chord : Nat
  config_file : String
  extra_confs : List String
  deriving DecidableEq, Repr

/-- The fields of an X event that `sxhkd.c` and `parse_event` read, over the
casts to `xcb_motion_notify_event_t` and `xcb_mapping_notify_event_t`. -/
structure xcb_event where
  response_type : Nat
  detail : Nat
  time : Nat
  root_x : Int
  root_y : Int
  state : Nat
  request : Nat
  count : Nat
  deriving DecidableEq, Repr

/-- The calls made by `sxhkd.c`, in program order. -/
inductive Effect where
  | find_hotkey (keysym button modfield event_type : Nat) (replay_ptr : Bool)
  | run (command : String)
  | fprintf_status (text : String)
  | fflush_status
  | xcb_allow_events (mode : Nat)
  | xcb_flush
  | abort_chain
  | destroy_chain (chain : Nat)
  | free_cycle (cycle : Nat)
  | free_hotkey
  | load_config (path : String)
  | ungrab
  | grab
  | xcb_refresh_keyboard_mapping
  | destroy_chord (chord : Nat)
  | get_lock_fields
  | make_chord
  | signal (sig : Int)
  | warn (text : String)
  deriving DecidableEq, Repr

/-- What a call of `find_hotkey` leaves behind: the returned hotkey (`none`
for `NULL`), the value stored behind `replay_event` after the call, and the
matcher globals. -/
structure FindResult where
  hk : Option hotkey_t
  replay_event : Bool
  st : Automaton

/-- Modelled from the spec: the collaborators that `sxhkd.c` calls and whose
definitions are outside `src/` (the chain matcher `find_hotkey` and
`abort_chain`, the config collaborator `load_config`, `parse_event`,
`get_lock_fields`, `make_chord`, the constants `MOD_STATE_FIELD` and
`ESCAPE_KEYSYM`), together with the library calls `snprintf` and
`xcb_refresh_keyboard_mapping`.  Each is a parameter.  The matcher works on
the matcher globals, the config collaborator on the hotkey list
(`load(source) -> ChainForest`), `get_lock_fields` on the three lock masks;
`grab`, `ungrab`, `run` act on the X server and on child processes only and
appear as effects. -/
structure Externals where
  MOD_STATE_FIELD : Nat
  ESCAPE_KEYSYM : Nat
  parse_event : xcb_event → Nat → Nat × Nat × Nat → Nat × Nat × Nat
  find_hotkey : Nat → Nat → Nat → Nat → Option Bool → Automaton → FindResult
  abort_chain : Automaton → Automaton
  load_config : String → List hotkey_t → List hotkey_t
  get_lock_fields : Nat × Nat × Nat
  make_chord : Nat → Nat → Nat → Nat → Bool → Bool → Nat
  snprintf : String → Int → Int → String
  xcb_refresh_keyboard_mapping : xcb_event → Nat

/-! ## `put_status` -/

/-- The body of `put_status`: `fprintf(status_fifo, "%c%s\n", c, s)` and
`fflush(status_fifo)`. -/
def put_status (c : Char) (str : String) : List Effect :=
  [Effect.fprintf_status (String.singleton c ++ str ++ "\n"), Effect.fflush_status]

/-! ## `key_button_event` -/

/-- The value of `num_lock | caps_lock | scroll_lock` stored in the `uint16_t`
local `lockfield`. -/
def lockfield (s : Daemon) : Nat := u16 (s.num_lock ||| s.caps_lock ||| s.scroll_lock)

/-- The statement `modfield &= ~lockfield & MOD_STATE_FIELD` of
`key_button_event`, on the `modfield` written by `parse_event`. -/
def key_modfield (X : Externals) (s : Daemon) (modfield : Nat) : Nat :=
  u16 (u16 modfield &&& (not32 (lockfield s) &&& X.MOD_STATE_FIELD))

/-- The final `switch (event_type)` of `key_button_event`. -/
def allow_switch (event_type : Nat) (replay_event : Bool) : List Effect :=
  if event_type = XCB_BUTTON_PRESS ∨ event_type = XCB_BUTTON_RELEASE then
    if replay_event then [Effect.xcb_allow_events XCB_ALLOW_REPLAY_POINTER]
    else [Effect.xcb_allow_events XCB_ALLOW_SYNC_POINTER]
  else if event_type = XCB_KEY_PRESS ∨ event_type = XCB_KEY_RELEASE then
    if replay_event then [Effect.xcb_allow_events XCB_ALLOW_REPLAY_KEYBOARD]
    else [Effect.xcb_allow_events XCB_ALLOW_SYNC_KEYBOARD]
  else []

/-- The call `parse_event(evt, event_type, &keysym, &button, &modfield)` on the
locals initialised to `XCB_NO_SYMBOL`, `XCB_NONE`, `0`: the values of
`keysym`, `button`, `modfield` after it. -/
def parsed_event (X : Externals) (evt : xcb_event) (event_type : Nat) : Nat × Nat × Nat :=
  X.parse_event evt event_type (XCB_NO_SYMBOL, XCB_NONE, 0)

/-- The first half of `key_button_event`, up to the `switch`: the new state,
the value of the local `replay_event`, and the calls made. -/
def key_button_match (X : Externals) (evt : xcb_event) (event_type : Nat) (s : Daemon) :
    Daemon × Bool × List Effect :=
  let parsed := parsed_event X evt event_type
  let keysym := parsed.1
  let button := parsed.2.1
  let modfield := key_modfield X s parsed.2.2
  if keysym ≠ XCB_NO_SYMBOL ∨ button ≠ XCB_NONE then
    let r := X.find_hotkey keysym button modfield event_type (some false) s.toAutomaton
    let s1 : Daemon := { s with toAutomaton := r.st }
    let call := Effect.find_hotkey keysym button modfield event_type true
    match r.hk with
    | some hk =>
      (s1, r.replay_event,
        [call, Effect.run hk.command] ++
          (if s1.status_fifo.isSome then put_status COMMAND_PREFIX hk.command else []))
    | none => (s1, r.replay_event, [call])
  else (s, false, [])

def key_button_event (X : Externals) (evt : xcb_event) (event_type : Nat) (s : Daemon) :
    Daemon × List Effect :=
  let m := key_button_match X evt event_type s
  (m.1, m.2.2 ++ allow_switch event_type m.2.1 ++ [Effect.xcb_flush])

/-! ## `motion_notify` -/

/-- The loop `while (~buttonfield & 1 && button < 5)` of `motion_notify`:
the final `button` and the number of iterations run. -/
def button_loop (buttonfield button : Nat) : Nat × Nat :=
  if not32 buttonfield &&& 1 ≠ 0 ∧ button < 5 then
    let r := button_loop (u16 (buttonfield >>> 1)) ((button + 1) % 256)
    (r.1, r.2 + 1)
  else (button, 0)
termination_by 5 - button
decreasing_by omega

/-- The local `buttonfield = e->state >> 8`. -/
def motion_buttonfield (e : xcb_event) : Nat := u16 (u16 e.state >>> 8)

/-- The local `button` after the loop, started at 1. -/
def motion_button (e : xcb_event) : Nat := (button_loop (motion_buttonfield e) 1).1

/-- The local `modfield = e->state & ~lockfield & MOD_STATE_FIELD`. -/
def motion_modfield (X : Externals) (s : Daemon) (e : xcb_event) : Nat :=
  u16 ((u16 e.state &&& not32 (lockfield s)) &&& X.MOD_STATE_FIELD)

/-- The guard `motion_interval > 0 && (e->time - last_motion_time) < motion_interval`. -/
def motion_dropped (s : Daemon) (e : xcb_event) : Bool :=
  decide (0 < s.motion_interval) && decide (u32_sub e.time s.last_motion_time < s.motion_interval)

def motion_notify (X : Externals) (e : xcb_event) (event_type : Nat) (s : Daemon) :
    Daemon × List Effect :=
  if motion_dropped s e then (s, [])
  else
    let s1 : Daemon := { s with last_motion_time := e.time }
    let modfield := motion_modfield X s1 e
    let button := motion_button e
    let r := X.find_hotkey XCB_NO_SYMBOL button modfield event_type none s1.toAutomaton
    let s2 : Daemon := { s1 with toAutomaton := r.st }
    let call := Effect.find_hotkey XCB_NO_SYMBOL button modfield event_type false
    match r.hk with
    | some hk => (s2, [call, Effect.run (X.snprintf hk.command e.root_x e.root_y)])
    | none => (s2, [call])

/-- The assignment `motion_interval = 1000.0 / max_freq` of `main`, guarded by
`max_freq != 0`, stored in an integer. -/
def motion_interval_of (max_freq : Nat) : Nat :=
  if max_freq ≠ 0 then 1000 / max_freq else 0

/-! ## `cleanup`, `reload_cmd`, `mapping_notify` -/

/-- The loop of `cleanup` over the list starting at `hotkeys_head`. -/
def cleanup_loop : List hotkey_t → List Effect
  | [] => []
  | hk :: next =>
    Effect.destroy_chain hk.chain :: Effect.free_cycle hk.cycle :: Effect.free_hotkey ::
      cleanup_loop next

def cleanup (s : Daemon) : Daemon × List Effect :=
  ({ s with hotkeys := [] }, cleanup_loop s.hotkeys)

/-- The loop `for (i = 0; i < num_extra_confs; i++) load_config(extra_confs[i])`. -/
def load_extra_confs (X : Externals) : List String → List hotkey_t → List hotkey_t × List Effect
  | [], hs => (hs, [])
  | p :: rest, hs =>
    let r := load_extra_confs X rest (X.load_config p hs)
    (r.1, Effect.load_config p :: r.2)

def reload_cmd (X : Externals) (s : Daemon) : Daemon × List Effect :=
  let c := cleanup s
  let s1 := c.1
  let hs2 := X.load_config s1.config_file s1.hotkeys
  let l := load_extra_confs X s1.extra_confs hs2
  ({ s1 with hotkeys := l.1 },
    c.2 ++ [Effect.load_config s1.config_file] ++ l.2 ++ [Effect.ungrab, Effect.grab])

def mapping_notify (X : Externals) (e : xcb_event) (s : Daemon) : Daemon × List Effect :=
  if s.ignore_mapping || !s.running || s.chained then (s, [])
  else if e.request = XCB_MAPPING_POINTER then (s, [])
  else if X.xcb_refresh_keyboard_mapping e = 1 then
    let locks := X.get_lock_fields
    let s1 : Daemon :=
      { s with num_lock := locks.1, caps_lock := locks.2.1, scroll_lock := locks.2.2 }
    let r := reload_cmd X s1
    let s2 : Daemon :=
      { r.1 with
        escape_chord := X.make_chord X.ESCAPE_KEYSYM XCB_NONE 0 XCB_KEY_PRESS false false }
    (s2, [Effect.xcb_refresh_keyboard_mapping, Effect.destroy_chord s.escape_chord,
          Effect.get_lock_fields] ++ r.2 ++ [Effect.make_chord])
  else (s, [Effect.xcb_refresh_keyboard_mapping])

/-! ## `hold` -/

def hold (sig : Int) (s : Daemon) : Daemon :=
  if sig = SIGHUP ∨ sig = SIGINT ∨ sig = SIGTERM then { s with running := false }
  else if sig = SIGUSR1 then { s with reload := true }
  else if sig = SIGALRM then { s with bell := true }
  else s

/-! ## The main loop -/

/-- The `switch (event_type)` of the main loop, on
`XCB_EVENT_RESPONSE_TYPE(evt)`. -/
def dispatch (X : Externals) (evt : xcb_event) (s : Daemon) : Daemon × List Effect :=
  let event_type := evt.response_type % 128
  if event_type = XCB_KEY_PRESS ∨ event_type = XCB_KEY_RELEASE ∨
      event_type = XCB_BUTTON_PRESS ∨ event_type = XCB_BUTTON_RELEASE then
    key_button_event X evt event_type s
  else if event_type = XCB_MOTION_NOTIFY then motion_notify X evt event_type s
  else if event_type = XCB_MAPPING_NOTIFY then mapping_notify X evt s
  else (s, [])

/-- The loop `while ((evt = xcb_poll_for_event(dpy)) != NULL)` over the events
that are queued. -/
def poll_loop (X : Externals) : List xcb_event → Daemon → Daemon × List Effect
  | [], s => (s, [])
  | evt :: rest, s =>
    let d := dispatch X evt s
    let r := poll_loop X rest d.1
    (r.1, d.2 ++ r.2)

/-- The block `if (reload) ...` of the main loop. -/
def reload_block (X : Externals) (s : Daemon) : Daemon × List Effect :=
  if s.reload then
    let r := reload_cmd X s
    ({ r.1 with reload := false }, Effect.signal SIGUSR1 :: r.2)
  else (s, [])

/-- The block `if (bell) ...` of the main loop. -/
def bell_block (X : Externals) (s : Daemon) : Daemon × List Effect :=
  if s.bell then
    let s1 : Daemon := { s with toAutomaton := X.abort_chain s.toAutomaton }
    ({ s1 with bell := false },
      [Effect.signal SIGALRM, Effect.abort_chain] ++
        (if s1.status_fifo.isSome then put_status TIMEOUT_PREFIX "Timeout reached" else []))
  else (s, [])

/-- The block `if (xcb_connection_has_error(dpy)) ...` of the main loop. -/
def error_block (has_error : Bool) (s : Daemon) : Daemon × List Effect :=
  if has_error then
    ({ s with running := false }, [Effect.warn "The server closed the connection.\n"])
  else (s, [])

/-- One pass of `while (running)`: the queued events, then the three blocks. -/
def loop_pass (X : Externals) (events : List xcb_event) (has_error : Bool) (s : Daemon) :
    Daemon × List Effect :=
  let p := poll_loop X events s
  let r := reload_block X p.1
  let b := bell_block X r.1
  let e := error_block has_error b.1
  (e.1, p.2 ++ r.2 ++ b.2 ++ e.2)

/-- The initialisation done by `main` before the loop: option defaults and the
options `-n`, `-f`, `-s`, `-c`, then `setup`, `get_lock_fields`, `make_chord`,
the `load_config` calls, `grab`, and the assignments
`reload = bell = chained = locked = false; running = true`. -/
def main_setup (X : Externals) (ignore_mapping : Bool) (max_freq : Nat) (status_fifo : Option Nat)
    (config_file : String) (extra_confs : List String) : Daemon × List Effect :=
  let locks := X.get_lock_fields
  let hs1 := X.load_config config_file []
  let l := load_extra_confs X extra_confs hs1
  ({ hotkeys := l.1, chained := false, locked := false,
     running := true, reload := false, bell := false,
     status_fifo := status_fifo, ignore_mapping := ignore_mapping,
     motion_interval := motion_interval_of max_freq, last_motion_time := 0,
     num_lock := locks.1, caps_lock := locks.2.1, scroll_lock := locks.2.2,
     escape_chord := X.make_chord X.ESCAPE_KEYSYM XCB_NONE 0 XCB_KEY_PRESS false false,
     config_file := config_file, extra_confs := extra_confs },
   [Effect.signal SIGINT, Effect.signal SIGHUP, Effect.signal SIGTERM, Effect.signal SIGUSR1,
    Effect.signal SIGALRM, Effect.get_lock_fields, Effect.make_chord,
    Effect.load_config config_file] ++ l.2 ++ [Effect.grab, Effect.xcb_flush])

/-! ## Specification-side definitions -/

/-- Whether an effect is a freeze release. -/
def is_allow : Effect → Bool
  | Effect.xcb_allow_events _ => true
  | _ => false

/-- Whether an effect is a consultation of the matcher. -/
def is_find_hotkey : Effect → Bool
  | Effect.find_hotkey _ _ _ _ _ => true
  | _ => false

/-- Whether an effect dispatches a command. -/
def is_run : Effect → Bool
  | Effect.run _ => true
  | _ => false

/-- Whether an effect writes to the status channel. -/
def is_status_write : Effect → Bool
  | Effect.fprintf_status _ => true
  | _ => false

/-- A release of the keyboard kind. -/
def keyboard_kind (mode : Nat) : Prop :=
  mode = XCB_ALLOW_REPLAY_KEYBOARD ∨ mode = XCB_ALLOW_SYNC_KEYBOARD

/-- A release of the pointer kind. -/
def pointer_kind (mode : Nat) : Prop :=
  mode = XCB_ALLOW_REPLAY_POINTER ∨ mode = XCB_ALLOW_SYNC_POINTER

/-- A key press or key release. -/
def is_key_event (event_type : Nat) : Prop :=
  event_type = XCB_KEY_PRESS ∨ event_type = XCB_KEY_RELEASE

/-- A button press or button release. -/
def is_button_event (event_type : Nat) : Prop :=
  event_type = XCB_BUTTON_PRESS ∨ event_type = XCB_BUTTON_RELEASE

/-- Whether button `k` is down in a pointer state: the mask of button `k` is
bit `7 + k` (`XCB_BUTTON_MASK_1 = 256`). -/
def button_pressed (state k : Nat) : Bool := state.testBit (7 + k)

/-- The number of the lowest-numbered pressed button among buttons 1..4 when
one of them is pressed, and 5 otherwise. -/
def lowest_pressed_button (state : Nat) : Nat :=
  ([1, 2, 3, 4].find? (button_pressed state)).getD 5

/-- The condition `keysym != XCB_NO_SYMBOL || button != XCB_NONE` under which
`key_button_event` hands the event to the matcher. -/
def resolves (X : Externals) (evt : xcb_event) (event_type : Nat) : Prop :=
  (parsed_event X evt event_type).1 ≠ XCB_NO_SYMBOL ∨
    (parsed_event X evt event_type).2.1 ≠ XCB_NONE

instance (X : Externals) (evt : xcb_event) (event_type : Nat) :
    Decidable (resolves X evt event_type) := by
  unfold resolves; exact inferInstance

/-- What `find_hotkey` answers when `key_button_event` calls it for an event. -/
def matcher_answer (X : Externals) (evt : xcb_event) (event_type : Nat) (s : Daemon) :
    FindResult :=
  X.find_hotkey (parsed_event X evt event_type).1 (parsed_event X evt event_type).2.1
    (key_modfield X s (parsed_event X evt event_type).2.2) event_type (some false) s.toAutomaton

/-- A hotkey whose chain is the single chord of key symbol 97. -/
def sample_hotkey : hotkey_t := { chain := 97, command := "xterm", cycle := 0 }

/-- An instance of the collaborators: an identity keymap, a matcher that
looks up single-chord hotkeys and leaves the replay flag alone, a config
collaborator that knows one file. -/
def sample_externals : Externals where
  MOD_STATE_FIELD := 255
  ESCAPE_KEYSYM := 65307
  parse_event := fun evt event_type out =>
    if event_type = XCB_KEY_PRESS ∨ event_type = XCB_KEY_RELEASE then
      (evt.detail, out.2.1, evt.state)
    else if event_type = XCB_BUTTON_PRESS ∨ event_type = XCB_BUTTON_RELEASE then
      (out.1, evt.detail, evt.state)
    else out
  find_hotkey := fun keysym button _ _ replay a =>
    { hk := a.hotkeys.find? (fun hk => hk.chain == keysym + 1000 * button),
      replay_event := replay.getD false, st := a }
  abort_chain := fun a => { a with chained := false, locked := false }
  load_config := fun path hs => if path = "sxhkdrc" then hs ++ [sample_hotkey] else hs
  get_lock_fields := (16, 2, 0)
  make_chord := fun keysym _ _ _ _ _ => keysym
  snprintf := fun fmt _ _ => fmt
  xcb_refresh_keyboard_mapping := fun e => if e.request = XCB_MAPPING_KEYBOARD then 1 else 0

/-- The sample collaborators with a config collaborator whose every load
fails, that is, yields no hotkey. -/
def failing_externals : Externals :=
  { sample_externals with load_config := fun _ hs => hs }

/-- The daemon as `main` leaves it before the loop, started as
`sxhkd -f 20 -s FIFO -c sxhkdrc`. -/
def sample_daemon : Daemon := (main_setup sample_externals false 20 (some 3) "sxhkdrc" []).1

/-- The same daemon started with `-n` in addition. -/
def sample_daemon_n : Daemon := (main_setup sample_externals true 20 (some 3) "sxhkdrc" []).1

/-- An event with every field zero but the given ones. -/
def sample_event (response_type detail time state request : Nat) : xcb_event :=
  { response_type := response_type, detail := detail, time := time, root_x := 0, root_y := 0,
    state := state, request := request, count := 0 }

/-! ## Lemmas on machine arithmetic -/

theorem not32_and_one (x : Nat) : not32 x &&& 1 = 1 - x % 2 := by
  rw [Nat.and_one_is_mod]
  unfold not32
  omega

theorem button_loop_eq (bf b : Nat) :
    button_loop bf b =
      if bf % 2 = 0 ∧ b < 5 then
        ((button_loop (bf / 2 % 65536) (b + 1)).1, (button_loop (bf / 2 % 65536) (b + 1)).2 + 1)
      else (b, 0) := by
  rw [button_loop]
  have h1 : (not32 bf &&& 1 ≠ 0) ↔ bf % 2 = 0 := by
    rw [not32_and_one]; omega
  by_cases hc : bf % 2 = 0 ∧ b < 5
  · have hb : (b + 1) % 256 = b + 1 := by omega
    have hs : u16 (bf >>> 1) = bf / 2 % 65536 := by
      simp [u16, Nat.shiftRight_eq_div_pow]
    simp only [h1, hc, and_self, if_true, hb, hs]
  · have hc2 : ¬ (not32 bf &&& 1 ≠ 0 ∧ b < 5) := by
      rw [h1]; exact hc
    simp only [hc, hc2, if_false]

theorem button_loop_one (bf : Nat) :
    button_loop bf 1 =
      if bf % 2 = 1 then (1, 0)
      else if bf / 2 % 2 = 1 then (2, 1)
      else if bf / 4 % 2 = 1 then (3, 2)
      else if bf / 8 % 2 = 1 then (4, 3)
      else (5, 4) := by
  have e4 : ∀ x, button_loop x 5 = (5, 0) := by
    intro x; rw [button_loop_eq]; simp
  have e3 : ∀ x, button_loop x 4 = if x % 2 = 1 then (4, 0) else (5, 1) := by
    intro x; rw [button_loop_eq]
    by_cases h : x % 2 = 0
    · have h2 : ¬ x % 2 = 1 := by omega
      simp [h, h2, e4]
    · have h2 : x % 2 = 1 := by omega
      simp [h2]
  have e2 : ∀ x, button_loop x 3 =
      if x % 2 = 1 then (3, 0) else if x / 2 % 2 = 1 then (4, 1) else (5, 2) := by
    intro x; rw [button_loop_eq]
    by_cases h : x % 2 = 0
    · have h2 : ¬ x % 2 = 1 := by omega
      have h3 : x / 2 % 65536 % 2 = x / 2 % 2 := by omega
      simp only [h, h2, e3, h3]
      by_cases h4 : x / 2 % 2 = 1 <;> simp [h4]
    · have h2 : x % 2 = 1 := by omega
      simp [h2]
  have e1 : ∀ x, button_loop x 2 =
      if x % 2 = 1 then (2, 0) else if x / 2 % 2 = 1 then (3, 1)
      else if x / 4 % 2 = 1 then (4, 2) else (5, 3) := by
    intro x; rw [button_loop_eq]
    by_cases h : x % 2 = 0
    · have h2 : ¬ x % 2 = 1 := by omega
      have h3 : x / 2 % 65536 % 2 = x / 2 % 2 := by omega
      have h5 : x / 2 % 65536 / 2 % 2 = x / 4 % 2 := by omega
      simp only [h, h2, e2, h3, h5]
      by_cases h4 : x / 2 % 2 = 1 <;> by_cases h6 : x / 4 % 2 = 1 <;> simp [h4, h6]
    · have h2 : x % 2 = 1 := by omega
      simp [h2]
  rw [button_loop_eq]
  by_cases h : bf % 2 = 0
  · have h2 : ¬ bf % 2 = 1 := by omega
    have h3 : bf / 2 % 65536 % 2 = bf / 2 % 2 := by omega
    have h5 : bf / 2 % 65536 / 2 % 2 = bf / 4 % 2 := by omega
    have h7 : bf / 2 % 65536 / 4 % 2 = bf / 8 % 2 := by omega
    simp only [h, h2, e1, h3, h5, h7]
    by_cases h4 : bf / 2 % 2 = 1 <;> by_cases h6 : bf / 4 % 2 = 1 <;>
      by_cases h8 : bf / 8 % 2 = 1 <;> simp [h4, h6, h8]
  · have h2 : bf % 2 = 1 := by omega
    simp [h2]

theorem lowest_pressed_button_eq (state : Nat) :
    lowest_pressed_button state =
      if state / 256 % 2 = 1 then 1
      else if state / 512 % 2 = 1 then 2
      else if state / 1024 % 2 = 1 then 3
      else if state / 2048 % 2 = 1 then 4
      else 5 := by
  unfold lowest_pressed_button button_pressed
  simp only [List.find?, Nat.testBit_to_div_mod]
  by_cases h1 : state / 256 % 2 = 1 <;> by_cases h2 : state / 512 % 2 = 1 <;>
    by_cases h3 : state / 1024 % 2 = 1 <;> by_cases h4 : state / 2048 % 2 = 1 <;>
    simp [h1, h2, h3, h4]

/-- C10: for every pointer state of a motion event, the button number that
`motion_notify` derives from `state >> 8` lies in 1..5, the scan loop runs at
most 4 iterations (it is a total function, so it terminates), and the result
is the lowest-numbered pressed button among buttons 1..4 when there is one
and 5 otherwise, in particular when no button is pressed. -/
theorem motion_button_lowest_pressed (e : xcb_event) :
    1 ≤ motion_button e ∧ motion_button e ≤ 5 ∧
    (button_loop (motion_buttonfield e) 1).2 ≤ 4 ∧
    motion_button e = lowest_pressed_button e.state := by
  have hb : motion_buttonfield e = e.state % 65536 / 256 % 65536 := by
    simp [motion_buttonfield, u16, Nat.shiftRight_eq_div_pow]
  unfold motion_button
  rw [hb, button_loop_one, lowest_pressed_button_eq]
  have a1 : e.state % 65536 / 256 % 65536 % 2 = e.state / 256 % 2 := by omega
  have a2 : e.state % 65536 / 256 % 65536 / 2 % 2 = e.state / 512 % 2 := by omega
  have a3 : e.state % 65536 / 256 % 65536 / 4 % 2 = e.state / 1024 % 2 := by omega
  have a4 : e.state % 65536 / 256 % 65536 / 8 % 2 = e.state / 2048 % 2 := by omega
  rw [a1, a2, a3, a4]
  by_cases h1 : e.state / 256 % 2 = 1 <;> by_cases h2 : e.state / 512 % 2 = 1 <;>
    by_cases h3 : e.state / 1024 % 2 = 1 <;> by_cases h4 : e.state / 2048 % 2 = 1 <;>
    simp [h1, h2, h3, h4]

/-! ## The signal handler -/

/-- C8: for every signal number, `hold` changes at most one of the flags
`running`, `reload`, `bell` (`running := false` for SIGHUP, SIGINT, SIGTERM;
`reload := true` for SIGUSR1; `bell := true` for SIGALRM; nothing for any other
signal) and leaves the hotkey list, `chained`, `locked` and every other field
of the daemon state as it was. -/
theorem hold_sets_one_flag (sig : Int) (s : Daemon) :
    hold sig s =
      { s with
        running := s.running && !decide (sig = SIGHUP ∨ sig = SIGINT ∨ sig = SIGTERM),
        reload := s.reload || decide (sig = SIGUSR1),
        bell := s.bell || decide (sig = SIGALRM) } ∧
    (hold sig s).toAutomaton = s.toAutomaton ∧
    (if (hold sig s).running = s.running then 0 else 1) +
      (if (hold sig s).reload = s.reload then 0 else 1) +
      (if (hold sig s).bell = s.bell then 0 else 1) ≤ 1 := by
  unfold hold SIGHUP SIGINT SIGTERM SIGUSR1 SIGALRM
  cases s with
  | mk a running reload bell =>
    by_cases h1 : sig = 1 ∨ sig = 2 ∨ sig = 15
    · have h2 : ¬ sig = 10 := by omega
      have h3 : ¬ sig = 14 := by omega
      cases running <;> simp [h1, h2, h3]
    · by_cases h2 : sig = 10
      · subst h2
        cases reload <;> simp
      · by_cases h3 : sig = 14
        · subst h3
          cases bell <;> simp
        · simp [h1, h2, h3]

/-! ## The timeout block of the main loop -/

/-- C9: when `bell` is set at the end of a pass, the loop calls `abort_chain`
exactly once, dispatches no command and does not consult the matcher, clears
`bell`, and writes to the status channel if and only if one is attached, the
text written being exactly `T`, `Timeout reached` and a newline. -/
theorem bell_block_timeout (X : Externals) (s : Daemon) (h : s.bell = true) :
    (bell_block X s).2 =
      [Effect.signal SIGALRM, Effect.abort_chain] ++
        (if s.status_fifo.isSome then
          [Effect.fprintf_status "TTimeout reached\n", Effect.fflush_status]
         else []) ∧
    (bell_block X s).2.count Effect.abort_chain = 1 ∧
    (bell_block X s).2.countP is_run = 0 ∧
    (bell_block X s).2.countP is_find_hotkey = 0 ∧
    (bell_block X s).1.bell = false ∧
    (bell_block X s).1.toAutomaton = X.abort_chain s.toAutomaton ∧
    ((bell_block X s).2.countP is_status_write = if s.status_fifo.isSome then 1 else 0) := by
  have hline : String.singleton TIMEOUT_PREFIX ++ "Timeout reached" ++ "\n" =
      "TTimeout reached\n" := by decide
  unfold bell_block
  simp only [h, if_true, put_status, hline]
  cases hf : s.status_fifo <;>
    simp [is_run, is_find_hotkey, is_status_write, List.count_cons, List.countP_cons]

/-- The timeout block on the sample daemon after SIGALRM. -/
theorem bell_block_timeout_witness :
    (hold SIGALRM sample_daemon).bell = true ∧
    (bell_block sample_externals (hold SIGALRM sample_daemon)).2 =
      [Effect.signal SIGALRM, Effect.abort_chain] ++
        (if (hold SIGALRM sample_daemon).status_fifo.isSome then
          [Effect.fprintf_status "TTimeout reached\n", Effect.fflush_status]
         else []) :=
  ⟨by decide, (bell_block_timeout sample_externals (hold SIGALRM sample_daemon) (by decide)).1⟩

/-! ## Freeze release in `key_button_event` -/

theorem allow_switch_key (event_type : Nat) (replay : Bool) (h : is_key_event event_type) :
    allow_switch event_type replay =
      [Effect.xcb_allow_events
        (if replay then XCB_ALLOW_REPLAY_KEYBOARD else XCB_ALLOW_SYNC_KEYBOARD)] := by
  unfold is_key_event XCB_KEY_PRESS XCB_KEY_RELEASE at h
  unfold allow_switch XCB_BUTTON_PRESS XCB_BUTTON_RELEASE XCB_KEY_PRESS XCB_KEY_RELEASE
  have h1 : ¬ (event_type = 4 ∨ event_type = 5) := by omega
  cases replay <;> simp [h1, h]

theorem allow_switch_button (event_type : Nat) (replay : Bool) (h : is_button_event event_type) :
    allow_switch event_type replay =
      [Effect.xcb_allow_events
        (if replay then XCB_ALLOW_REPLAY_POINTER else XCB_ALLOW_SYNC_POINTER)] := by
  unfold is_button_event XCB_BUTTON_PRESS XCB_BUTTON_RELEASE at h
  unfold allow_switch XCB_BUTTON_PRESS XCB_BUTTON_RELEASE
  cases replay <;> simp [h]

theorem key_button_match_eq (X : Externals) (evt : xcb_event) (event_type : Nat) (s : Daemon) :
    (key_button_match X evt event_type s).2.1 =
      (decide (resolves X evt event_type) && (matcher_answer X evt event_type s).replay_event) ∧
    (key_button_match X evt event_type s).2.2.countP is_allow = 0 ∧
    (key_button_match X evt event_type s).2.2.filter is_find_hotkey =
      (if resolves X evt event_type then
        [Effect.find_hotkey (parsed_event X evt event_type).1 (parsed_event X evt event_type).2.1
          (key_modfield X s (parsed_event X evt event_type).2.2) event_type true]
       else []) := by
  unfold key_button_match matcher_answer
  by_cases hr : resolves X evt event_type
  · have hr2 := hr
    unfold resolves at hr2
    simp only [hr, hr2, if_true, decide_True, Bool.true_and]
    cases hk : (X.find_hotkey (parsed_event X evt event_type).1 (parsed_event X evt event_type).2.1
        (key_modfield X s (parsed_event X evt event_type).2.2) event_type (some false)
        s.toAutomaton).hk with
    | none => simp [is_allow, is_find_hotkey]
    | some h =>
      cases hf : s.status_fifo <;>
        simp [hf, is_allow, is_find_hotkey, put_status, List.countP_cons, List.filter_cons]
  · have hr2 := hr
    unfold resolves at hr2
    simp [hr, hr2]

theorem filter_allow_append (pre : List Effect) (mode : Nat)
    (h : pre.countP is_allow = 0) :
    (pre ++ [Effect.xcb_allow_events mode, Effect.xcb_flush]).filter is_allow =
      [Effect.xcb_allow_events mode] := by
  have h0 : pre.filter is_allow = [] := by
    rw [List.countP_eq_length_filter] at h
    exact List.length_eq_zero.mp h
  simp [List.filter_append, h0, is_allow, List.filter_cons]

/-- C3: for every key press, key release, button press or button release,
`key_button_event` issues exactly one freeze release, as its last call but the
flush, whatever the matcher answers; the release is of the keyboard kind if
and only if the event is a key event and of the pointer kind if and only if it
is a button event. -/
theorem key_button_event_one_release (X : Externals) (evt : xcb_event) (event_type : Nat)
    (s : Daemon) (h : is_key_event event_type ∨ is_button_event event_type) :
    ∃ mode,
      (key_button_event X evt event_type s).2 =
        (key_button_match X evt event_type s).2.2 ++
          [Effect.xcb_allow_events mode, Effect.xcb_flush] ∧
      (key_button_event X evt event_type s).2.filter is_allow = [Effect.xcb_allow_events mode] ∧
      (key_button_event X evt event_type s).2.countP is_allow = 1 ∧
      (keyboard_kind mode ↔ is_key_event event_type) ∧
      (pointer_kind mode ↔ is_button_event event_type) := by
  have hm := (key_button_match_eq X evt event_type s).2.1
  have hxor : is_key_event event_type → ¬ is_button_event event_type := by
    unfold is_key_event is_button_event XCB_KEY_PRESS XCB_KEY_RELEASE XCB_BUTTON_PRESS
      XCB_BUTTON_RELEASE
    omega
  rcases h with hk | hb
  · refine ⟨if (key_button_match X evt event_type s).2.1 then XCB_ALLOW_REPLAY_KEYBOARD
      else XCB_ALLOW_SYNC_KEYBOARD, ?_, ?_, ?_, ?_, ?_⟩
    · simp [key_button_event, allow_switch_key event_type _ hk]
    · simp only [key_button_event, allow_switch_key event_type _ hk, List.append_assoc,
        List.singleton_append]
      exact filter_allow_append _ _ hm
    · simp only [key_button_event, allow_switch_key event_type _ hk, List.append_assoc,
        List.singleton_append]
      rw [List.countP_eq_length_filter, filter_allow_append _ _ hm]; rfl
    · cases (key_button_match X evt event_type s).2.1 <;>
        simp [keyboard_kind, hk]
    · cases (key_button_match X evt event_type s).2.1 <;>
        simp [pointer_kind, hxor hk, XCB_ALLOW_REPLAY_KEYBOARD, XCB_ALLOW_SYNC_KEYBOARD,
          XCB_ALLOW_REPLAY_POINTER, XCB_ALLOW_SYNC_POINTER]
  · have hnk : ¬ is_key_event event_type := fun hk => hxor hk hb
    refine ⟨if (key_button_match X evt event_type s).2.1 then XCB_ALLOW_REPLAY_POINTER
      else XCB_ALLOW_SYNC_POINTER, ?_, ?_, ?_, ?_, ?_⟩
    · simp [key_button_event, allow_switch_button event_type _ hb]
    · simp only [key_button_event, allow_switch_button event_type _ hb, List.append_assoc,
        List.singleton_append]
      exact filter_allow_append _ _ hm
    · simp only [key_button_event, allow_switch_button event_type _ hb, List.append_assoc,
        List.singleton_append]
      rw [List.countP_eq_length_filter, filter_allow_append _ _ hm]; rfl
    · cases (key_button_match X evt event_type s).2.1 <;>
        simp [keyboard_kind, hnk, XCB_ALLOW_REPLAY_KEYBOARD, XCB_ALLOW_SYNC_KEYBOARD,
          XCB_ALLOW_REPLAY_POINTER, XCB_ALLOW_SYNC_POINTER]
    · cases (key_button_match X evt event_type s).2.1 <;>
        simp [pointer_kind, hb]

/-- A press of button 1 on the sample daemon is released once, in a pointer
mode. -/
theorem key_button_event_one_release_witness :
    (is_key_event XCB_BUTTON_PRESS ∨ is_button_event XCB_BUTTON_PRESS) ∧
    ∃ mode,
      (key_button_event sample_externals (sample_event 4 1 1000 16 0) XCB_BUTTON_PRESS
          sample_daemon).2 =
        (key_button_match sample_externals (sample_event 4 1 1000 16 0) XCB_BUTTON_PRESS
          sample_daemon).2.2 ++ [Effect.xcb_allow_events mode, Effect.xcb_flush] ∧
      (key_button_event sample_externals (sample_event 4 1 1000 16 0) XCB_BUTTON_PRESS
          sample_daemon).2.filter is_allow = [Effect.xcb_allow_events mode] ∧
      (key_button_event sample_externals (sample_event 4 1 1000 16 0) XCB_BUTTON_PRESS
          sample_daemon).2.countP is_allow = 1 ∧
      (keyboard_kind mode ↔ is_key_event XCB_BUTTON_PRESS) ∧
      (pointer_kind mode ↔ is_button_event XCB_BUTTON_PRESS) :=
  ⟨Or.inr (Or.inl rfl),
    key_button_event_one_release sample_externals (sample_event 4 1 1000 16 0) XCB_BUTTON_PRESS
      sample_daemon (Or.inr (Or.inl rfl))⟩

/-! ## Replay decision in `key_button_event` -/

theorem testBit_not32 (x i : Nat) (h : x < 4294967296) :
    (not32 x).testBit i = (decide (i < 32) && !x.testBit i) := by
  have e : not32 x = 2 ^ 32 - (x + 1) := by
    unfold not32; omega
  rw [e]
  exact Nat.testBit_two_pow_sub_succ (by omega) i

theorem testBit_u16 (x i : Nat) : (u16 x).testBit i = (decide (i < 16) && x.testBit i) := by
  have e : u16 x = x % 2 ^ 16 := rfl
  rw [e, Nat.testBit_mod_two_pow]

theorem lockfield_lt (s : Daemon) : lockfield s < 4294967296 := by
  unfold lockfield u16; omega

theorem testBit_key_modfield (X : Externals) (s : Daemon) (raw i : Nat) :
    (key_modfield X s raw).testBit i =
      (decide (i < 16) && raw.testBit i && !(lockfield s).testBit i &&
        X.MOD_STATE_FIELD.testBit i) := by
  unfold key_modfield
  rw [testBit_u16, Nat.testBit_and, Nat.testBit_and, testBit_u16,
    testBit_not32 _ _ (lockfield_lt s)]
  by_cases h : i < 16
  · have h2 : i < 32 := by omega
    simp [h, h2, Bool.and_assoc]
  · simp [h]

theorem testBit_motion_modfield (X : Externals) (s : Daemon) (e : xcb_event) (i : Nat) :
    (motion_modfield X s e).testBit i =
      (decide (i < 16) && e.state.testBit i && !(lockfield s).testBit i &&
        X.MOD_STATE_FIELD.testBit i) := by
  unfold motion_modfield
  rw [testBit_u16, Nat.testBit_and, Nat.testBit_and, testBit_u16,
    testBit_not32 _ _ (lockfield_lt s)]
  by_cases h : i < 16
  · have h2 : i < 32 := by omega
    simp [h, h2, Bool.and_assoc]
  · simp [h]

theorem motion_modfield_eq_key_modfield (X : Externals) (s : Daemon) (e : xcb_event) :
    motion_modfield X s e = key_modfield X s e.state := by
  apply Nat.eq_of_testBit_eq
  intro i
  rw [testBit_motion_modfield, testBit_key_modfield]

theorem testBit_lockfield (s : Daemon) (i : Nat) :
    (lockfield s).testBit i =
      (decide (i < 16) &&
        (s.num_lock.testBit i || s.caps_lock.testBit i || s.scroll_lock.testBit i)) := by
  unfold lockfield
  rw [testBit_u16, Nat.testBit_or, Nat.testBit_or]

theorem key_modfield_and_eq_zero (X : Externals) (s : Daemon) (raw mask : Nat)
    (h : ∀ i, i < 16 → mask.testBit i = true → (lockfield s).testBit i = true) :
    key_modfield X s raw &&& mask = 0 := by
  apply Nat.eq_of_testBit_eq
  intro i
  rw [Nat.testBit_and, testBit_key_modfield, Nat.zero_testBit]
  by_cases hi : i < 16
  · cases hm : mask.testBit i
    · simp
    · simp [h i hi hm]
  · simp [hi]

theorem key_modfield_congr (X : Externals) (s : Daemon) (raw1 raw2 : Nat)
    (h : raw1 ||| lockfield s = raw2 ||| lockfield s) :
    key_modfield X s raw1 = key_modfield X s raw2 := by
  apply Nat.eq_of_testBit_eq
  intro i
  rw [testBit_key_modfield, testBit_key_modfield]
  have hb : (raw1 ||| lockfield s).testBit i = (raw2 ||| lockfield s).testBit i := by rw [h]
  rw [Nat.testBit_or, Nat.testBit_or] at hb
  cases hl : (lockfield s).testBit i
  · rw [hl] at hb
    simp only [Bool.or_false] at hb
    rw [hb]
  · simp

theorem motion_notify_consults (X : Externals) (e : xcb_event) (event_type : Nat) (s : Daemon) :
    (motion_notify X e event_type s).2.filter is_find_hotkey =
      (if motion_dropped s e then []
       else [Effect.find_hotkey XCB_NO_SYMBOL (motion_button e) (motion_modfield X s e)
              event_type false]) ∧
    (motion_notify X e event_type s).2.head? =
      (if motion_dropped s e then none
       else some (Effect.find_hotkey XCB_NO_SYMBOL (motion_button e) (motion_modfield X s e)
              event_type false)) := by
  have hm : motion_modfield X { s with last_motion_time := e.time } e = motion_modfield X s e :=
    rfl
  unfold motion_notify
  by_cases hd : motion_dropped s e = true
  · simp [hd]
  · simp only [hd, if_false, hm]
    cases (X.find_hotkey XCB_NO_SYMBOL (motion_button e) (motion_modfield X s e) event_type none
      { s with last_motion_time := e.time }.toAutomaton).hk <;>
      simp [is_find_hotkey, List.filter_cons]

theorem key_button_event_consults (X : Externals) (evt : xcb_event) (event_type : Nat)
    (s : Daemon) :
    (key_button_event X evt event_type s).2.filter is_find_hotkey =
      (if resolves X evt event_type then
        [Effect.find_hotkey (parsed_event X evt event_type).1 (parsed_event X evt event_type).2.1
          (key_modfield X s (parsed_event X evt event_type).2.2) event_type true]
       else []) := by
  have ha : (allow_switch event_type (key_button_match X evt event_type s).2.1).filter
      is_find_hotkey = [] := by
    unfold allow_switch
    split_ifs <;> simp [is_find_hotkey, List.filter_cons]
  simp only [key_button_event, List.filter_append, ha, (key_button_match_eq X evt event_type s).2.2]
  simp [is_find_hotkey, List.filter_cons]

/-- C4: for every raw modifier state and every value of the lock masks, the
modifier field that `key_button_event` and `motion_notify` hand to
`find_hotkey` has no bit of `num_lock`, `caps_lock` or `scroll_lock` set, and
two raw states that differ only in lock bits (that agree once every lock bit
is set) are handed over as the same modifier field. -/
theorem matcher_modfield_has_no_lock_bits (X : Externals) (s : Daemon) (evt e : xcb_event)
    (event_type raw raw2 : Nat) (e2 : xcb_event) :
    (key_button_event X evt event_type s).2.filter is_find_hotkey =
      (if resolves X evt event_type then
        [Effect.find_hotkey (parsed_event X evt event_type).1 (parsed_event X evt event_type).2.1
          (key_modfield X s (parsed_event X evt event_type).2.2) event_type true]
       else []) ∧
    (motion_notify X e event_type s).2.filter is_find_hotkey =
      (if motion_dropped s e then []
       else [Effect.find_hotkey XCB_NO_SYMBOL (motion_button e) (motion_modfield X s e)
              event_type false]) ∧
    (key_modfield X s raw &&& s.num_lock = 0 ∧ key_modfield X s raw &&& s.caps_lock = 0 ∧
      key_modfield X s raw &&& s.scroll_lock = 0 ∧ key_modfield X s raw &&& lockfield s = 0) ∧
    (motion_modfield X s e &&& s.num_lock = 0 ∧ motion_modfield X s e &&& s.caps_lock = 0 ∧
      motion_modfield X s e &&& s.scroll_lock = 0 ∧ motion_modfield X s e &&& lockfield s = 0) ∧
    (raw ||| lockfield s = raw2 ||| lockfield s →
      key_modfield X s raw = key_modfield X s raw2) ∧
    (e.state ||| lockfield s = e2.state ||| lockfield s →
      motion_modfield X s e = motion_modfield X s e2) := by
  have hn : ∀ r, key_modfield X s r &&& s.num_lock = 0 := fun r =>
    key_modfield_and_eq_zero X s r _ (fun i hi hm => by
      rw [testBit_lockfield]; simp [hi, hm])
  have hc : ∀ r, key_modfield X s r &&& s.caps_lock = 0 := fun r =>
    key_modfield_and_eq_zero X s r _ (fun i hi hm => by
      rw [testBit_lockfield]; simp [hi, hm])
  have hs : ∀ r, key_modfield X s r &&& s.scroll_lock = 0 := fun r =>
    key_modfield_and_eq_zero X s r _ (fun i hi hm => by
      rw [testBit_lockfield]; simp [hi, hm])
  have hl : ∀ r, key_modfield X s r &&& lockfield s = 0 := fun r =>
    key_modfield_and_eq_zero X s r _ (fun i _ hm => hm)
  refine ⟨key_button_event_consults X evt event_type s,
    (motion_notify_consults X e event_type s).1, ⟨hn raw, hc raw, hs raw, hl raw⟩, ?_,
    key_modfield_congr X s raw raw2, ?_⟩
  · rw [motion_modfield_eq_key_modfield]
    exact ⟨hn _, hc _, hs _, hl _⟩
  · intro h
    rw [motion_modfield_eq_key_modfield, motion_modfield_eq_key_modfield]
    exact key_modfield_congr X s _ _ h

/-- On the sample daemon (Num Lock is bit 4, Caps Lock bit 1), a raw state with
Control, Num Lock and Caps Lock and a raw state with Control alone give the
same modifier field. -/
theorem matcher_modfield_has_no_lock_bits_witness :
    (22 ||| lockfield sample_daemon = 4 ||| lockfield sample_daemon) ∧
    ((sample_event 6 0 1000 22 0).state ||| lockfield sample_daemon =
      (sample_event 6 0 1000 4 0).state ||| lockfield sample_daemon) ∧
    key_modfield sample_externals sample_daemon 22 =
      key_modfield sample_externals sample_daemon 4 ∧
    motion_modfield sample_externals sample_daemon (sample_event 6 0 1000 22 0) =
      motion_modfield sample_externals sample_daemon (sample_event 6 0 1000 4 0) :=
  ⟨by decide, by decide,
    (matcher_modfield_has_no_lock_bits sample_externals sample_daemon
      (sample_event 2 97 1000 22 0) (sample_event 6 0 1000 22 0) XCB_KEY_PRESS 22 4
      (sample_event 6 0 1000 4 0)).2.2.2.2.1 (by decide),
    (matcher_modfield_has_no_lock_bits sample_externals sample_daemon
      (sample_event 2 97 1000 22 0) (sample_event 6 0 1000 22 0) XCB_KEY_PRESS 22 4
      (sample_event 6 0 1000 4 0)).2.2.2.2.2 (by decide)⟩

/-! ## Rate limit of `motion_notify` -/

theorem motion_notify_dropped (X : Externals) (e : xcb_event) (event_type : Nat) (s : Daemon)
    (h : motion_dropped s e = true) : motion_notify X e event_type s = (s, []) := by
  unfold motion_notify
  simp [h]

theorem motion_notify_accepted (X : Externals) (e : xcb_event) (event_type : Nat) (s : Daemon)
    (h : motion_dropped s e = false) :
    (motion_notify X e event_type s).1 =
      { s with
        last_motion_time := e.time,
        toAutomaton := (X.find_hotkey XCB_NO_SYMBOL (motion_button e) (motion_modfield X s e)
          event_type none s.toAutomaton).st } ∧
    (motion_notify X e event_type s).2.countP is_find_hotkey = 1 := by
  have hm : motion_modfield X { s with last_motion_time := e.time } e = motion_modfield X s e :=
    rfl
  constructor
  · unfold motion_notify
    simp only [h, hm]
    cases (X.find_hotkey XCB_NO_SYMBOL (motion_button e) (motion_modfield X s e) event_type none
      { s with last_motion_time := e.time }.toAutomaton).hk <;> simp
  · rw [List.countP_eq_length_filter, (motion_notify_consults X e event_type s).1]
    simp [h]

theorem motion_dropped_iff (s : Daemon) (e : xcb_event) (h : 0 < s.motion_interval) :
    motion_dropped s e = true ↔ u32_sub e.time s.last_motion_time < s.motion_interval := by
  unfold motion_dropped
  simp [h]

/-- C1, counterexample: on the daemon as `main` leaves it with a 50 ms interval
(`last_motion_time = 0`), of the motion events at times 45 and 55, 10 ms
apart, the first is dropped and the second reaches the matcher; and of the
motion events at times 0 and 60, 60 ms apart, the first is dropped. -/
theorem motion_rate_limit_counts_from_last_accepted :
    sample_daemon.motion_interval = 50 ∧ sample_daemon.last_motion_time = 0 ∧
    u32_sub (sample_event 6 0 55 256 0).time (sample_event 6 0 45 256 0).time = 10 ∧
    motion_notify sample_externals (sample_event 6 0 45 256 0) XCB_MOTION_NOTIFY sample_daemon =
      (sample_daemon, []) ∧
    (motion_notify sample_externals (sample_event 6 0 55 256 0) XCB_MOTION_NOTIFY
      (motion_notify sample_externals (sample_event 6 0 45 256 0) XCB_MOTION_NOTIFY
        sample_daemon).1).2.countP is_find_hotkey = 1 ∧
    u32_sub (sample_event 6 0 60 256 0).time (sample_event 6 0 0 256 0).time = 60 ∧
    motion_notify sample_externals (sample_event 6 0 0 256 0) XCB_MOTION_NOTIFY sample_daemon =
      (sample_daemon, []) := by
  have h45 := motion_notify_dropped sample_externals (sample_event 6 0 45 256 0)
    XCB_MOTION_NOTIFY sample_daemon (by decide)
  refine ⟨by decide, by decide, by decide, h45, ?_, by decide,
    motion_notify_dropped _ _ _ _ (by decide)⟩
  rw [h45]
  exact (motion_notify_accepted _ _ _ _ (by decide)).2

/-- C1, amended: with `motion_interval > 0`, a motion event at time `t` with
`t - last_motion_time < motion_interval` (unsigned 32-bit difference) is
dropped: the matcher is not consulted, no command is run, the state is
unchanged.  Otherwise `last_motion_time` becomes `t` and the matcher is
consulted once, as the first call.  With a 50 ms interval: of two motion
events 10 ms apart the second is dropped whenever the first was not; of two
motion events 60 ms apart the second always reaches the matcher (the first
does exactly when it is not itself dropped by the rule above). -/
theorem motion_notify_rate_limit (X : Externals) (e e2 : xcb_event) (event_type : Nat)
    (s : Daemon) (h : 0 < s.motion_interval) :
    (u32_sub e.time s.last_motion_time < s.motion_interval →
      motion_notify X e event_type s = (s, [])) ∧
    (¬ u32_sub e.time s.last_motion_time < s.motion_interval →
      (motion_notify X e event_type s).1 =
        { s with
          last_motion_time := e.time,
          toAutomaton := (X.find_hotkey XCB_NO_SYMBOL (motion_button e) (motion_modfield X s e)
            event_type none s.toAutomaton).st } ∧
      (motion_notify X e event_type s).2.countP is_find_hotkey = 1 ∧
      (motion_notify X e event_type s).2.head? =
        some (Effect.find_hotkey XCB_NO_SYMBOL (motion_button e) (motion_modfield X s e)
          event_type false)) ∧
    (s.motion_interval = 50 → u32_sub e2.time e.time = 10 →
      ¬ u32_sub e.time s.last_motion_time < s.motion_interval →
      motion_notify X e2 event_type (motion_notify X e event_type s).1 =
        ((motion_notify X e event_type s).1, [])) ∧
    (s.motion_interval = 50 → u32_sub e2.time e.time = 60 →
      (motion_notify X e2 event_type (motion_notify X e event_type s).1).2.countP
        is_find_hotkey = 1) := by
  have hiff := motion_dropped_iff s e h
  refine ⟨fun hlt => motion_notify_dropped X e event_type s (hiff.mpr hlt), ?_, ?_, ?_⟩
  · intro hge
    have hd : motion_dropped s e = false := by
      cases hc : motion_dropped s e
      · rfl
      · exact absurd (hiff.mp hc) hge
    refine ⟨(motion_notify_accepted X e event_type s hd).1,
      (motion_notify_accepted X e event_type s hd).2, ?_⟩
    rw [(motion_notify_consults X e event_type s).2]
    simp [hd]
  · intro h50 h10 hge
    have hd : motion_dropped s e = false := by
      cases hc : motion_dropped s e
      · rfl
      · exact absurd (hiff.mp hc) hge
    apply motion_notify_dropped
    rw [(motion_notify_accepted X e event_type s hd).1]
    unfold motion_dropped
    simp [h50, h10]
  · intro h50 h60
    apply (motion_notify_accepted X e2 event_type _ _).2
    cases hc : motion_dropped s e
    · rw [(motion_notify_accepted X e event_type s hc).1]
      unfold motion_dropped
      simp [h50, h60]
    · rw [motion_notify_dropped X e event_type s hc]
      have hlt := hiff.mp hc
      rw [h50] at hlt
      have hge : ¬ u32_sub e2.time s.last_motion_time < 50 := by
        unfold u32_sub at hlt h60 ⊢
        omega
      unfold motion_dropped
      simp [h50, hge]

/-- On the sample daemon with its 50 ms interval, the motion event at time
1000 is accepted and the one at time 1010 is dropped. -/
theorem motion_notify_rate_limit_witness :
    0 < sample_daemon.motion_interval ∧
    motion_notify sample_externals (sample_event 6 0 1010 256 0) XCB_MOTION_NOTIFY
        (motion_notify sample_externals (sample_event 6 0 1000 256 0) XCB_MOTION_NOTIFY
          sample_daemon).1 =
      ((motion_notify sample_externals (sample_event 6 0 1000 256 0) XCB_MOTION_NOTIFY
          sample_daemon).1, []) :=
  ⟨by decide,
    (motion_notify_rate_limit sample_externals (sample_event 6 0 1000 256 0)
      (sample_event 6 0 1010 256 0) XCB_MOTION_NOTIFY sample_daemon (by decide)).2.2.1
      (by decide) (by decide) (by decide)⟩

/-! ## Reload -/

theorem load_extra_confs_trace (X : Externals) (paths : List String) (hs : List hotkey_t) :
    (load_extra_confs X paths hs).2 = paths.map Effect.load_config := by
  induction paths generalizing hs with
  | nil => rfl
  | cons p rest ih => simp [load_extra_confs, ih]

theorem load_extra_confs_fail (X : Externals) (paths : List String)
    (hfail : ∀ p ∈ paths, X.load_config p [] = []) : (load_extra_confs X paths []).1 = [] := by
  induction paths with
  | nil => rfl
  | cons p rest ih =>
    have hp : X.load_config p [] = [] := hfail p (List.mem_cons_self p rest)
    have hrest : ∀ q ∈ rest, X.load_config q [] = [] := fun q hq =>
      hfail q (List.mem_cons_of_mem p hq)
    simp only [load_extra_confs, hp]
    exact ih hrest

theorem cleanup_loop_count (hs : List hotkey_t) :
    (cleanup_loop hs).count Effect.abort_chain = 0 ∧
    (cleanup_loop hs).count Effect.ungrab = 0 ∧
    (cleanup_loop hs).count Effect.grab = 0 := by
  induction hs with
  | nil => simp [cleanup_loop]
  | cons hk rest ih => simp [cleanup_loop, List.count_cons, ih]

theorem map_load_config_count (paths : List String) :
    (paths.map Effect.load_config).count Effect.abort_chain = 0 ∧
    (paths.map Effect.load_config).count Effect.ungrab = 0 ∧
    (paths.map Effect.load_config).count Effect.grab = 0 := by
  induction paths with
  | nil => simp
  | cons p rest ih => simp [List.count_cons, ih]

theorem reload_cmd_eq (X : Externals) (s : Daemon) :
    (reload_cmd X s).1 =
      { s with hotkeys := (load_extra_confs X s.extra_confs (X.load_config s.config_file [])).1 } ∧
    (reload_cmd X s).2 =
      cleanup_loop s.hotkeys ++ [Effect.load_config s.config_file] ++
        s.extra_confs.map Effect.load_config ++ [Effect.ungrab, Effect.grab] := by
  unfold reload_cmd cleanup
  simp [load_extra_confs_trace]

theorem reload_cmd_count (X : Externals) (s : Daemon) :
    (reload_cmd X s).2.count Effect.abort_chain = 0 ∧
    (reload_cmd X s).2.count Effect.ungrab = 1 ∧
    (reload_cmd X s).2.count Effect.grab = 1 := by
  rw [(reload_cmd_eq X s).2]
  obtain ⟨c1, c2, c3⟩ := cleanup_loop_count s.hotkeys
  obtain ⟨m1, m2, m3⟩ := map_load_config_count s.extra_confs
  simp [List.count_append, List.count_cons, c1, c2, c3, m1, m2, m3]

/-! ## Keymap changes -/

/-- C5, counterexample: the daemon started with `-n` receives a keymap-change
notification of keyboard scope, which `xcb_refresh_keyboard_mapping` would
act on, and performs no regrab at all; so does a daemon in the middle of a
chain. -/
theorem mapping_notify_keyboard_scope_ignored :
    (sample_event 34 0 0 0 1).request = XCB_MAPPING_KEYBOARD ∧
    (sample_event 34 0 0 0 1).request ≠ XCB_MAPPING_POINTER ∧
    sample_externals.xcb_refresh_keyboard_mapping (sample_event 34 0 0 0 1) = 1 ∧
    sample_daemon_n.ignore_mapping = true ∧
    mapping_notify sample_externals (sample_event 34 0 0 0 1) sample_daemon_n =
      (sample_daemon_n, []) ∧
    mapping_notify sample_externals (sample_event 34 0 0 0 1)
        { sample_daemon with chained := true } =
      ({ sample_daemon with chained := true }, []) := by
  refine ⟨by decide, by decide, by decide, by decide, ?_, ?_⟩
  · unfold mapping_notify
    simp [show sample_daemon_n.ignore_mapping = true by decide]
  · unfold mapping_notify
    simp

/-- C5, amended: a keymap-change notification of pointer scope causes no
regrab and no state change.  One of any other scope causes a full regrab
(`reload_cmd` runs: the whole hotkey list is torn down, the configuration is
loaded again, then `ungrab()` and `grab()` are called once each, in this
order) provided `ignore_mapping` is off, the daemon is running, no chain is
in progress and `xcb_refresh_keyboard_mapping` returns 1; when
`ignore_mapping` is on, the daemon is not running or a chain is in progress,
nothing happens; when `xcb_refresh_keyboard_mapping` does not return 1, the
state is unchanged and nothing is grabbed. -/
theorem mapping_notify_regrab (X : Externals) (e : xcb_event) (s : Daemon) :
    (e.request = XCB_MAPPING_POINTER → mapping_notify X e s = (s, [])) ∧
    (e.request ≠ XCB_MAPPING_POINTER → s.ignore_mapping = false → s.running = true →
      s.chained = false → X.xcb_refresh_keyboard_mapping e = 1 →
      (mapping_notify X e s).2 =
        [Effect.xcb_refresh_keyboard_mapping, Effect.destroy_chord s.escape_chord,
          Effect.get_lock_fields] ++
        (cleanup_loop s.hotkeys ++ [Effect.load_config s.config_file] ++
          s.extra_confs.map Effect.load_config ++ [Effect.ungrab, Effect.grab]) ++
        [Effect.make_chord] ∧
      (mapping_notify X e s).1.hotkeys = (reload_cmd X s).1.hotkeys ∧
      (mapping_notify X e s).2.count Effect.ungrab = 1 ∧
      (mapping_notify X e s).2.count Effect.grab = 1) ∧
    ((s.ignore_mapping = true ∨ s.running = false ∨ s.chained = true) →
      mapping_notify X e s = (s, [])) ∧
    (X.xcb_refresh_keyboard_mapping e ≠ 1 →
      (mapping_notify X e s).1 = s ∧ (mapping_notify X e s).2.count Effect.ungrab = 0 ∧
      (mapping_notify X e s).2.count Effect.grab = 0) := by
  refine ⟨?_, ?_, ?_, ?_⟩
  · intro hp
    unfold mapping_notify
    by_cases hg : (s.ignore_mapping || !s.running || s.chained) = true <;> simp [hg, hp]
  · intro hp hi hr hc hx
    have hg : (s.ignore_mapping || !s.running || s.chained) = false := by simp [hi, hr, hc]
    have hcnt := reload_cmd_count X
      { s with num_lock := X.get_lock_fields.1, caps_lock := X.get_lock_fields.2.1,
               scroll_lock := X.get_lock_fields.2.2 }
    have heq := reload_cmd_eq X
      { s with num_lock := X.get_lock_fields.1, caps_lock := X.get_lock_fields.2.1,
               scroll_lock := X.get_lock_fields.2.2 }
    unfold mapping_notify
    simp only [hg, hp, hx, if_true, if_false, Bool.false_eq_true]
    refine ⟨?_, ?_, ?_, ?_⟩
    · rw [heq.2]
    · rw [heq.1, (reload_cmd_eq X s).1]
    · simp [List.count_append, List.count_cons, hcnt.2.1]
    · simp [List.count_append, List.count_cons, hcnt.2.2]
  · intro hg
    have hg2 : (s.ignore_mapping || !s.running || s.chained) = true := by
      rcases hg with h | h | h <;> simp [h]
    unfold mapping_notify
    simp [hg2]
  · intro hx
    unfold mapping_notify
    by_cases hg : (s.ignore_mapping || !s.running || s.chained) = true
    · simp [hg]
    · by_cases hp : e.request = XCB_MAPPING_POINTER <;> simp [hg, hp, hx, List.count_cons]

/-- A keymap-change notification of keyboard scope on the sample daemon
regrabs. -/
theorem mapping_notify_regrab_witness :
    (sample_event 34 0 0 0 1).request ≠ XCB_MAPPING_POINTER ∧
    sample_daemon.ignore_mapping = false ∧ sample_daemon.running = true ∧
    sample_daemon.chained = false ∧
    sample_externals.xcb_refresh_keyboard_mapping (sample_event 34 0 0 0 1) = 1 ∧
    (mapping_notify sample_externals (sample_event 34 0 0 0 1) sample_daemon).2.count
      Effect.grab = 1 :=
  ⟨by decide, by decide, by decide, by decide, by decide,
    ((mapping_notify_regrab sample_externals (sample_event 34 0 0 0 1) sample_daemon).2.1
      (by decide) (by decide) (by decide) (by decide) (by decide)).2.2.2⟩

/-! ## Reload while a chain is in progress -/

/-- C6, counterexample: SIGUSR1 arrives while a chain is in progress.  The
reload block of the main loop tears the old hotkey list down and loads a new
one with `chained` still true: `abort_chain` is not called, `chained` is true
at the moment the list is discarded and true after the reload. -/
theorem reload_block_while_chained :
    (hold SIGUSR1 { sample_daemon with chained := true }).reload = true ∧
    (hold SIGUSR1 { sample_daemon with chained := true }).chained = true ∧
    (hold SIGUSR1 { sample_daemon with chained := true }).hotkeys = [sample_hotkey] ∧
    (cleanup (hold SIGUSR1 { sample_daemon with chained := true })).1.hotkeys = [] ∧
    (cleanup (hold SIGUSR1 { sample_daemon with chained := true })).1.chained = true ∧
    (reload_block sample_externals (hold SIGUSR1 { sample_daemon with chained := true })).2 =
      [Effect.signal SIGUSR1, Effect.destroy_chain 97, Effect.free_cycle 0, Effect.free_hotkey,
        Effect.load_config "sxhkdrc", Effect.ungrab, Effect.grab] ∧
    (reload_block sample_externals
      (hold SIGUSR1 { sample_daemon with chained := true })).1.chained = true := by
  refine ⟨by decide, by decide, by decide, by decide, by decide, by decide, by decide⟩

/-- C6, amended: a reload does not reset the automaton.  `reload_cmd`, and
the reload block of the main loop that calls it when `reload` is set, discard
the hotkey list and load it again without calling `abort_chain`, and leave
`chained` and `locked` as they were, whether or not a chain is in progress.
Only `mapping_notify` refuses to reload while `chained` is true: it returns
with the state unchanged. -/
theorem reload_keeps_chained (X : Externals) (e : xcb_event) (s : Daemon) :
    (cleanup s).1.hotkeys = [] ∧ (cleanup s).1.chained = s.chained ∧
    (reload_cmd X s).1.chained = s.chained ∧ (reload_cmd X s).1.locked = s.locked ∧
    (reload_cmd X s).2.count Effect.abort_chain = 0 ∧
    (reload_block X s).1.chained = s.chained ∧ (reload_block X s).1.locked = s.locked ∧
    (reload_block X s).2.count Effect.abort_chain = 0 ∧
    (reload_block X s).1.reload = false ∧
    (reload_block X s).1.hotkeys = (if s.reload then (reload_cmd X s).1.hotkeys else s.hotkeys) ∧
    (s.chained = true → mapping_notify X e s = (s, [])) := by
  have h1 := (reload_cmd_eq X s).1
  have h2 := (reload_cmd_count X s).1
  refine ⟨rfl, rfl, by rw [h1], by rw [h1], h2, ?_, ?_, ?_, ?_, ?_, ?_⟩
  · unfold reload_block
    by_cases hr : s.reload = true <;> simp [hr, h1]
  · unfold reload_block
    by_cases hr : s.reload = true <;> simp [hr, h1]
  · unfold reload_block
    by_cases hr : s.reload = true <;> simp [hr, h2, List.count_cons]
  · unfold reload_block
    by_cases hr : s.reload = true
    · simp [hr]
    · simp only [hr, if_false]
      simpa using hr
  · unfold reload_block
    by_cases hr : s.reload = true <;> simp [hr]
  · intro hc
    unfold mapping_notify
    simp [hc]

/-- A keymap change during a chain on the sample daemon is ignored. -/
theorem reload_keeps_chained_witness :
    ({ sample_daemon with chained := true } : Daemon).chained = true ∧
    mapping_notify sample_externals (sample_event 34 0 0 0 1)
        { sample_daemon with chained := true } =
      ({ sample_daemon with chained := true }, []) :=
  ⟨rfl,
    (reload_keeps_chained sample_externals (sample_event 34 0 0 0 1)
      { sample_daemon with chained := true }).2.2.2.2.2.2.2.2.2.2 rfl⟩

/-! ## Reload with a failing load -/

/-- C7, counterexample: the sample daemon holds one hotkey; a reload in which
every load fails leaves it with an empty hotkey list, and `ungrab` and `grab`
are called all the same. -/
theorem reload_cmd_failed_load_empties :
    sample_daemon.hotkeys = [sample_hotkey] ∧
    (∀ p l, failing_externals.load_config p l = l) ∧
    (reload_cmd failing_externals sample_daemon).1.hotkeys = [] ∧
    (reload_cmd failing_externals sample_daemon).1.hotkeys ≠ sample_daemon.hotkeys ∧
    (reload_cmd failing_externals sample_daemon).2 =
      [Effect.destroy_chain 97, Effect.free_cycle 0, Effect.free_hotkey,
        Effect.load_config "sxhkdrc", Effect.ungrab, Effect.grab] := by
  refine ⟨by decide, fun _ _ => rfl, by decide, by decide, by decide⟩

/-- C7, amended: in every reload in which the configuration load yields no
new hotkeys (the load of `config_file` and the load of each extra
configuration file add nothing to the emptied list), `reload_cmd` has already
discarded the previous hotkey list in `cleanup`, and it still calls `ungrab`
and `grab`: the hotkey list after `reload_cmd` is empty, and nothing else of
the state has changed. -/
theorem reload_cmd_failed_load (X : Externals) (s : Daemon)
    (hcfg : X.load_config s.config_file [] = [])
    (hextra : ∀ p ∈ s.extra_confs, X.load_config p [] = []) :
    (reload_cmd X s).1 = { s with hotkeys := [] } ∧
    (reload_cmd X s).1.hotkeys = [] ∧
    (reload_cmd X s).2 =
      cleanup_loop s.hotkeys ++ [Effect.load_config s.config_file] ++
        s.extra_confs.map Effect.load_config ++ [Effect.ungrab, Effect.grab] ∧
    (reload_cmd X s).2.count Effect.ungrab = 1 ∧
    (reload_cmd X s).2.count Effect.grab = 1 := by
  have h1 := (reload_cmd_eq X s).1
  rw [hcfg, load_extra_confs_fail X _ hextra] at h1
  exact ⟨h1, by rw [h1], (reload_cmd_eq X s).2, (reload_cmd_count X s).2.1,
    (reload_cmd_count X s).2.2⟩

/-- The sample daemon, whose collaborator knows the file `sxhkdrc` only,
reloaded after its configuration was pointed at files that yield nothing. -/
theorem reload_cmd_failed_load_witness :
    ({ sample_daemon with config_file := "missing", extra_confs := ["absent"] } :
      Daemon).hotkeys = [sample_hotkey] ∧
    sample_externals.load_config "missing" [] = [] ∧
    (∀ p ∈ ["absent"], sample_externals.load_config p [] = []) ∧
    (reload_cmd sample_externals
      { sample_daemon with config_file := "missing", extra_confs := ["absent"] }).1.hotkeys =
      [] :=
  ⟨by decide, by decide, by decide,
    (reload_cmd_failed_load sample_externals
      { sample_daemon with config_file := "missing", extra_confs := ["absent"] }
      (by decide) (by decide)).2.1⟩

end Sxhkd
